import Mathlib

/-!
# GameWikiOverlay — formal model and verification

A shallow embedding of the orchestration core of the GameWikiOverlay
application (`src/GameWikiOverlayPython/src/game_wiki_overlay/`):

* `common/data_models.py` — the pydantic data model (`GameConfig`,
  `HotkeyConfig`, `PopupConfig`, `AppSettings`);
* `app_logic.py` — `AppLogic._build_url`, the game-matching loop and the
  hotkey pipeline `AppLogic._handle_hotkey_press_thread_safe`,
  `AppLogic._handle_popup_closing`;
* `config_manager.py` — `ConfigManager.load_settings`,
  `ConfigManager.load_game_configs`;
* `core/hotkey_manager.py` — `HotkeyManager.register_global_hotkey`,
  `HotkeyManager._parse_hotkey`, `HotkeyManager._stop_listener_internal`.

Python strings are modelled as Lean `String` (char lists); Python string
truthiness (`if s:`) is `pyTruthyStr`; Python's `in` on strings is the
list-infix test `pyIn`.  Geometry values are modelled as `Int` (they flow
through Qt's integer `QRect`).  Fallible Python code is modelled with
`Option`/`Except`; an uncaught Python exception is an `Except.error`.
-/

/-! ## Python string primitives -/

/-- Python `str.lower()` applied character-wise (the inputs of interest are
ASCII, where `Char.toLower` agrees with Python). -/
def strLower (s : String) : String := ⟨s.data.map Char.toLower⟩

/-- Python's substring test `a in b` (note `"" in b` is `True`). -/
def pyIn (a b : String) : Bool := decide (a.data <:+: b.data)

/-- Python truthiness of a string: `""` is falsy. -/
def pyTruthyStr (s : String) : Bool := !s.data.isEmpty

/-- Python truthiness of `Optional[str]`: `None` and `""` are falsy. -/
def pyTruthyOptStr : Option String → Bool
  | none => false
  | some s => pyTruthyStr s

/-- Python `"sep".join(parts)` specialised to the separator `"+"` as used by
`HotkeyManager._parse_hotkey`. -/
def joinPlus : List String → String
  | [] => ""
  | [p] => p
  | p :: q :: rest => p ++ "+" ++ joinPlus (q :: rest)

/-- Python `str.replace(pat, repl)` (all non-overlapping occurrences, left to
right), on char lists with explicit fuel; the fuel is instantiated with the
length of the subject so every position is examined.  Only called with the
non-empty pattern `"{query}"`. -/
def replaceAllAux (pat repl : List Char) : Nat → List Char → List Char
  | _, [] => []
  | 0, l => l
  | fuel + 1, c :: rest =>
    if pat.isPrefixOf (c :: rest) then
      repl ++ replaceAllAux pat repl fuel (List.drop (pat.length - 1) rest)
    else
      c :: replaceAllAux pat repl fuel rest

/-- Python `str.replace` wrapper on `String`. -/
def pyReplace (s pat repl : String) : String :=
  ⟨replaceAllAux pat.data repl.data s.data.length s.data⟩

/-! ## `urllib.parse.quote_plus` -/

/-- The characters `urllib.parse.quote` never escapes
(ASCII letters, digits, `_`, `.`, `-`, `~`). -/
def alwaysSafe (c : Char) : Bool :=
  (('a' ≤ c && c ≤ 'z') || ('A' ≤ c && c ≤ 'Z') || ('0' ≤ c && c ≤ '9')
    || c == '_' || c == '.' || c == '-' || c == '~')

/-- Upper-case hex digit of a value `< 16`. -/
def hexDigit (n : Nat) : Char :=
  if n < 10 then Char.ofNat ('0'.toNat + n) else Char.ofNat ('A'.toNat + (n - 10))

/-- UTF-8 encoding of one code point, as byte values. -/
def utf8Bytes (c : Char) : List Nat :=
  let n := c.toNat
  if n < 0x80 then [n]
  else if n < 0x800 then
    [0xC0 + n / 64, 0x80 + n % 64]
  else if n < 0x10000 then
    [0xE0 + n / 4096, 0x80 + (n / 64) % 64, 0x80 + n % 64]
  else
    [0xF0 + n / 262144, 0x80 + (n / 4096) % 64, 0x80 + (n / 64) % 64, 0x80 + n % 64]

/-- `urllib.parse.quote_plus`: safe characters kept, space becomes `+`,
every other character percent-encoded byte-wise. -/
def quotePlus (s : String) : String :=
  ⟨s.data.flatMap fun c =>
    if alwaysSafe c then [c]
    else if c == ' ' then ['+']
    else (utf8Bytes c).flatMap fun b => ['%', hexDigit (b / 16), hexDigit (b % 16)]⟩

/-! ## Data model (`common/data_models.py`) -/

/-- `GameConfig` (pydantic).  `KeywordMap` is the dict as an association list
in document order. -/
structure GameConfig where
  BaseUrl : String
  NeedsSearch : Bool := true
  SearchTemplate : Option String := none
  KeywordMap : Option (List (String × String)) := none
deriving DecidableEq, Repr

/-- `HotkeyConfig` (pydantic). -/
structure HotkeyConfig where
  Key : String
  Modifiers : List String := []
deriving DecidableEq, Repr

/-- `PopupConfig` (pydantic).  The Python fields are `float`, but every value
that reaches them travels through Qt's integer `QRect`, so they are modelled
as `Int`. -/
structure PopupConfig where
  Width : Int := 800
  Height : Int := 600
  Left : Int := 100
  Top : Int := 100
deriving DecidableEq, Repr

/-- `AppSettings` (pydantic). -/
structure AppSettings where
  Hotkey : HotkeyConfig
  Popup : PopupConfig
deriving DecidableEq, Repr

/-! ## `AppLogic._build_url` (`app_logic.py` lines 192–207)

```python
def _build_url(self, game_cfg, search_term=None):
    if search_term:
        if game_cfg.KeywordMap:
            mapped_term = game_cfg.KeywordMap.get(search_term.lower(), search_term)
            search_term = mapped_term
        if game_cfg.SearchTemplate:
            encoded_search_term = urllib.parse.quote_plus(search_term)
            return game_cfg.SearchTemplate.replace("{query}", encoded_search_term)
        else:
            return game_cfg.BaseUrl + urllib.parse.quote_plus(search_term)
    return game_cfg.BaseUrl
```
Note the truthiness tests: an empty search term, an empty keyword map and an
empty template string all behave as absent. -/
def buildUrl (cfg : GameConfig) (searchTerm : Option String := none) : String :=
  if pyTruthyOptStr searchTerm then
    let t0 := searchTerm.getD ""
    let t1 :=
      match cfg.KeywordMap with
      | some m => if m.isEmpty then t0 else (List.lookup (strLower t0) m).getD t0
      | none => t0
    match cfg.SearchTemplate with
    | some tpl =>
        if pyTruthyStr tpl then pyReplace tpl "{query}" (quotePlus t1)
        else cfg.BaseUrl ++ quotePlus t1
    | none => cfg.BaseUrl ++ quotePlus t1
  else
    cfg.BaseUrl

/-! ## Game matching (`app_logic.py` lines 96–102)

```python
for game_name, game_cfg in self.game_configs.items():
    if game_name.lower() in active_window_title.lower():
        matched_game_cfg = game_cfg
        matched_game_name = game_name
        break
```
-/

/-- First catalog entry whose lower-cased key is a substring of the
lower-cased active window title. -/
def matchGame (title : String) (catalog : List (String × GameConfig)) :
    Option (String × GameConfig) :=
  catalog.find? fun p => pyIn (strLower p.1) (strLower title)

/-! ## Hotkey pipeline (`AppLogic._handle_hotkey_press_thread_safe`) -/

/-- Outcome of `SearchPromptDialog.exec_dialog` as consumed by the pipeline
(`ui/search_prompt_dialog.py`, `DialogCode`). -/
inductive PromptResult where
  | accepted (term : String)
  | openLast
  | rejected
deriving DecidableEq, Repr

/-- Failure modes of the popup-creation `try` block
(`app_logic.py` lines 176–190): the `WebViewPopup` constructor raising,
or `show()` raising after construction and signal connection. -/
inductive FailMode where
  | noFail
  | ctorFails
  | showFails
deriving DecidableEq, Repr

/-- A live `WebViewPopup` as far as the orchestrator observes it. -/
structure Popup where
  id : Nat
  url : String
  geom : PopupConfig
  visible : Bool
deriving DecidableEq, Repr

/-- The orchestrator-owned mutable state touched by the pipeline:
`self.last_search_url_str`, `self.current_popup` and `self.settings.Popup`. -/
structure AppState where
  lastSearchUrl : Option String
  activePopup : Option Popup
  settingsPopup : PopupConfig
deriving DecidableEq, Repr

/-- Environment of one hotkey invocation: the active window title, the loaded
catalog (in document order), the user's prompt resolution, whether popup
creation fails, and the identity of the popup that would be created. -/
structure HotkeyEnv where
  activeTitle : String
  catalog : List (String × GameConfig)
  promptResult : PromptResult
  failMode : FailMode
  nextId : Nat
deriving DecidableEq, Repr

/-- Externally observable events of one pipeline run, in order. -/
inductive Ev where
  /-- a tray notification -/
  | notified (msg : String)
  /-- `window_utils.show_cursor_until_visible()` -/
  | cursorShown
  /-- the `SearchPromptDialog` opened with the given pre-filled last term -/
  | promptShown (prefill : Option String)
  /-- a popup's `closeEvent` emitted `popup_closing` with its geometry -/
  | closingEmitted (id : Nat) (geom : PopupConfig)
  /-- `_handle_popup_closing` persisted a geometry into the settings -/
  | geometrySaved (geom : PopupConfig)
  /-- a new popup's `show()` returned -/
  | popupShown (id : Nat)
deriving DecidableEq, Repr

/-- The special-cased profile names of `app_logic.py` line 114. -/
def specialGames : List String := ["counter-strike 2", "valorant"]

/-- `self.current_popup and self.current_popup.isVisible()`. -/
def popupVisible (st : AppState) : Bool :=
  match st.activePopup with
  | some p => p.visible
  | none => false

/-- The pre-filled "last term" handed to `SearchPromptDialog`
(`app_logic.py` line 135):
`self.last_search_url_str if matched_game_cfg.BaseUrl not in
(self.last_search_url_str or "") else ""`.
Note this is a substring test, not a prefix test. -/
def promptPrefill (cfg : GameConfig) (lastUrl : Option String) : Option String :=
  if pyIn cfg.BaseUrl (lastUrl.getD "") then some "" else lastUrl

/-- Target-URL resolution (`app_logic.py` lines 125–158): returns `none` when
the prompt was rejected (pipeline aborts), otherwise the target URL together
with the new value of `last_search_url_str`. -/
def resolveTarget (st : AppState) (cfg : GameConfig) (pr : PromptResult) :
    Option (String × Option String) :=
  if cfg.NeedsSearch then
    match pr with
    | .accepted term =>
        if pyTruthyStr term then
          let t := buildUrl cfg (some term)
          some (t, some t)
        else
          let t := buildUrl cfg
          some (t, some t)
    | .openLast =>
        match st.lastSearchUrl with
        | some u =>
            if pyTruthyStr u then some (u, some u)
            else
              let t := buildUrl cfg
              some (t, some t)
        | none =>
            let t := buildUrl cfg
            some (t, some t)
    | .rejected => none
  else
    let t := buildUrl cfg
    some (t, some t)

/-- The notification emitted by the popup-creation `except` block. -/
def errNote : Ev := Ev.notified "Error opening wiki"

/-- Popup replacement and creation (`app_logic.py` lines 160–190).  When a
popup is already live, its `popup_closing` signal is first *disconnected*
from `_handle_popup_closing`, then `close()` runs its `closeEvent`
synchronously: the signal is emitted with the final geometry but — being
disconnected — nothing is saved.  Then the new popup is constructed from
`self.settings.Popup` and shown; on failure the `except` block notifies. -/
def openPopup (st : AppState) (target : String) (fm : FailMode) (nid : Nat) :
    AppState × List Ev :=
  let closed :=
    match st.activePopup with
    | some p => ({ st with activePopup := none }, [Ev.closingEmitted p.id p.geom])
    | none => (st, ([] : List Ev))
  let st1 := closed.1
  let evs1 := closed.2
  match fm with
  | .ctorFails => (st1, evs1 ++ [errNote])
  | .showFails =>
      ({ st1 with activePopup := some ⟨nid, target, st1.settingsPopup, false⟩ },
        evs1 ++ [errNote])
  | .noFail =>
      ({ st1 with activePopup := some ⟨nid, target, st1.settingsPopup, true⟩ },
        evs1 ++ [Ev.popupShown nid, Ev.cursorShown])

/-- The tail of the pipeline after target resolution (`app_logic.py` lines
160–190): a rejected prompt (`r = none`) aborts; otherwise
`last_search_url_str` takes its new value and — when the target string is
truthy — the popup is replaced/created.  `preEvs` are the events already
emitted earlier in this run. -/
def pipelineAfterResolve (st : AppState) (env : HotkeyEnv) (preEvs : List Ev)
    (r : Option (String × Option String)) : AppState × List Ev :=
  match r with
  | none => (st, preEvs)
  | some (target, newLast) =>
      let st2 := { st with lastSearchUrl := newLast }
      if pyTruthyStr target then
        let opened := openPopup st2 target env.failMode env.nextId
        (opened.1, preEvs ++ opened.2)
      else
        (st2, preEvs)

/-- The pipeline once a profile has matched (`app_logic.py` lines 111–190):
the CS2/Valorant special case (show cursor; if a popup is visible, only
re-activate it and return), then the search prompt for needs-search
profiles, then target resolution and popup handling. -/
def pipelineMatched (st : AppState) (env : HotkeyEnv) (name : String)
    (cfg : GameConfig) : AppState × List Ev :=
  if specialGames.contains (strLower name) && popupVisible st then
    (st, [Ev.cursorShown])
  else
    pipelineAfterResolve st env
      ((if specialGames.contains (strLower name) then [Ev.cursorShown] else [])
        ++ (if cfg.NeedsSearch then
              [Ev.promptShown (promptPrefill cfg st.lastSearchUrl)]
            else []))
      (resolveTarget st cfg env.promptResult)

/-- One full run of `AppLogic._handle_hotkey_press_thread_safe`
(`app_logic.py` lines 82–190). -/
def handleHotkey (st : AppState) (env : HotkeyEnv) : AppState × List Ev :=
  if env.catalog.isEmpty then
    (st, [Ev.notified "Game configurations not loaded."])
  else
    match matchGame env.activeTitle env.catalog with
    | none => (st, [Ev.notified ("No configuration for: " ++ env.activeTitle)])
    | some (name, cfg) => pipelineMatched st env name cfg

/-- `AppLogic._handle_popup_closing` (`app_logic.py` lines 210–224): persists
the received geometry into `settings.Popup` (and saves the settings) and
clears `current_popup`. -/
def handlePopupClosing (st : AppState) (geom : PopupConfig) : AppState × List Ev :=
  ({ st with settingsPopup := geom, activePopup := none }, [Ev.geometrySaved geom])

/-- A user-initiated close of the active popup while its `popup_closing`
signal is still connected: `closeEvent` emits the geometry and
`_handle_popup_closing` persists it. -/
def userClosePopup (st : AppState) : AppState × List Ev :=
  match st.activePopup with
  | some p =>
      let afterSave := handlePopupClosing st p.geom
      (afterSave.1, Ev.closingEmitted p.id p.geom :: afterSave.2)
  | none => (st, [])

/-! ## JSON documents and pydantic validation (`config_manager.py`) -/

/-- A parsed JSON value (numbers restricted to the integral values the
settings documents actually carry). -/
inductive Json where
  | null
  | bool (b : Bool)
  | num (n : Int)
  | str (s : String)
  | arr (xs : List Json)
  | obj (fields : List (String × Json))

/-- Field lookup in a JSON object (first binding wins, as in Python dicts
built from JSON). -/
def getField (fields : List (String × Json)) (k : String) : Option Json :=
  List.lookup k fields

/-- pydantic validation of a `str`-typed field. -/
def strOfJson : Json → Option String
  | .str s => some s
  | _ => none

/-- pydantic validation of a `bool`-typed field. -/
def boolOfJson : Json → Option Bool
  | .bool b => some b
  | _ => none

/-- pydantic validation of an (integral) numeric field. -/
def numOfJson : Json → Option Int
  | .num n => some n
  | _ => none

/-- pydantic validation of a `List[str]` field. -/
def strListOfJson : Json → Option (List String)
  | .arr xs => xs.mapM strOfJson
  | _ => none

/-- pydantic validation of a `Dict[str, str]` field. -/
def strMapOfJson : Json → Option (List (String × String))
  | .obj fs => fs.mapM fun p => (strOfJson p.2).map fun v => (p.1, v)
  | _ => none

/-- `HotkeyConfig(**fields)`-style validation of a nested JSON value. -/
def hotkeyConfigFromJson : Json → Option HotkeyConfig
  | .obj fs =>
      match (getField fs "Key").bind strOfJson with
      | none => none
      | some key =>
          match getField fs "Modifiers" with
          | none => some ⟨key, []⟩
          | some v => (strListOfJson v).map fun mods => ⟨key, mods⟩
  | _ => none

/-- Validation of a nested `PopupConfig` JSON value (every field defaulted). -/
def popupConfigFromJson : Json → Option PopupConfig
  | .obj fs =>
      let field := fun (k : String) (d : Int) =>
        match getField fs k with
        | none => some d
        | some v => numOfJson v
      match field "Width" 800, field "Height" 600, field "Left" 100, field "Top" 100 with
      | some w, some h, some l, some t => some ⟨w, h, l, t⟩
      | _, _, _, _ => none
  | _ => none

/-- `AppSettings(**data)` for `data` a JSON *object*: pydantic validation of
the two required nested models.  (A non-object `data` never reaches pydantic:
the `**` unpacking itself raises `TypeError`, which `load_settings` does not
catch — see `settingsLoad`.) -/
def appSettingsFromFields (fs : List (String × Json)) : Option AppSettings :=
  match (getField fs "Hotkey").bind hotkeyConfigFromJson,
        (getField fs "Popup").bind popupConfigFromJson with
  | some h, some p => some ⟨h, p⟩
  | _, _ => none

/-- Serialization `settings.model_dump_json()` as a JSON value. -/
def renderSettings (s : AppSettings) : Json :=
  .obj
    [("Hotkey", .obj
        [("Key", .str s.Hotkey.Key),
         ("Modifiers", .arr (s.Hotkey.Modifiers.map Json.str))]),
     ("Popup", .obj
        [("Width", .num s.Popup.Width), ("Height", .num s.Popup.Height),
         ("Left", .num s.Popup.Left), ("Top", .num s.Popup.Top)])]

/-- `ConfigManager._get_default_hotkey_config` /
`_get_default_popup_config` combined (`config_manager.py` lines 43–47):
`HotkeyConfig(Key="F1", Modifiers=["Ctrl"])` and the `PopupConfig()`
defaults. -/
def defaultSettings : AppSettings := ⟨⟨"F1", ["Ctrl"]⟩, ⟨800, 600, 100, 100⟩⟩

/-- The documents `load_settings` can see.  For each path, `none` means the
file does not exist, `some none` a file whose bytes fail JSON parsing, and
`some (some j)` a file parsing to `j`. -/
structure SettingsFS where
  user : Option (Option Json)
  defaults : Option (Option Json)

/-- `ConfigManager.save_settings` as seen by `load_settings`: a full-document
overwrite of the user file (I/O failures are outside this model). -/
def writeUser (fs : SettingsFS) (j : Json) : SettingsFS :=
  { fs with user := some (some j) }

/-- The `try/except` body of `load_settings` (`config_manager.py` lines
75–99) applied to the user document's parse outcome: a `json.JSONDecodeError`
or pydantic `ValidationError` regenerates, saves and returns the hardcoded
defaults; a document parsing to a non-object raises an uncaught `TypeError`
at `AppSettings(**data)` (modelled as `Except.error ()`). -/
def parseUserDoc (fs : SettingsFS) (j? : Option Json) :
    Except Unit (AppSettings × SettingsFS) :=
  match j? with
  | none => .ok (defaultSettings, writeUser fs (renderSettings defaultSettings))
  | some (.obj fields) =>
      match appSettingsFromFields fields with
      | some s => .ok (s, fs)
      | none => .ok (defaultSettings, writeUser fs (renderSettings defaultSettings))
  | some _ => .error ()

/-- `ConfigManager.load_settings` (`config_manager.py` lines 49–99): the
user-document / shipped-default / hardcoded-default cascade.  Copying the
shipped default and the subsequent saves are modelled as succeeding (the
claims under check do not concern I/O failure). -/
def settingsLoad (fs : SettingsFS) : Except Unit (AppSettings × SettingsFS) :=
  match fs.user with
  | some j? => parseUserDoc fs j?
  | none =>
      match fs.defaults with
      | some d =>
          -- shutil.copy then fall through to the parse of the (copied) user file
          parseUserDoc { fs with user := some d } d
      | none =>
          .ok (defaultSettings, writeUser fs (renderSettings defaultSettings))

/-! ## `ConfigManager.load_game_configs` (`config_manager.py` lines 115–162) -/

/-- `GameConfig(**fields)` for a JSON object value: pydantic validation of
the four fields with their defaults. -/
def gameConfigFromFields (fs : List (String × Json)) : Option GameConfig :=
  let base := (getField fs "BaseUrl").bind strOfJson
  let needs :=
    match getField fs "NeedsSearch" with
    | none => some true
    | some v => boolOfJson v
  let tpl :=
    match getField fs "SearchTemplate" with
    | none => some none
    | some .null => some none
    | some v => (strOfJson v).map some
  let km :=
    match getField fs "KeywordMap" with
    | none => some none
    | some .null => some none
    | some v => (strMapOfJson v).map some
  match base, needs, tpl, km with
  | some b, some n, some t, some k => some ⟨b, n, t, k⟩
  | _, _, _, _ => none

/-- The per-entry loop of `load_game_configs` (lines 146–151).  A pydantic
`ValidationError` on an entry whose value is a mapping is caught and the
entry skipped; an entry whose value is *not* a mapping makes
`GameConfig(**config_data)` raise `TypeError`, which the loop does not catch
(modelled as `Except.error ()` — it propagates to the enclosing handler). -/
def loadEntries : List (String × Json) → Except Unit (List (String × GameConfig))
  | [] => .ok []
  | (n, .obj fs) :: rest =>
      match gameConfigFromFields fs with
      | some cfg => (loadEntries rest).map fun l => (n, cfg) :: l
      | none => loadEntries rest
  | _ :: _ => .error ()

/-- `ConfigManager.load_game_configs`: a missing document, a JSON parse
error, a non-object top level, or any exception escaping the entry loop all
end in the surrounding handlers, which return an empty catalog; the function
itself never raises. -/
def loadGameConfigs (doc : Option (Option Json)) : List (String × GameConfig) :=
  match doc with
  | none => []            -- file does not exist (line 136)
  | some none => []       -- json.JSONDecodeError (line 157)
  | some (some (.obj fields)) =>
      match loadEntries fields with
      | .ok l => l
      | .error _ => []    -- TypeError from an entry, caught at line 160
  | some (some _) => []   -- data.items() fails, caught at line 160

/-! ## `HotkeyManager` (`core/hotkey_manager.py`) -/

/-- `HotkeyManager._parse_hotkey` modifier translation table. -/
def modifierToken : String → Option String
  | "Ctrl" => some "ctrl"
  | "Shift" => some "shift"
  | "Alt" => some "alt"
  | "Win" => some "cmd"
  | _ => none      -- unknown modifiers are logged and dropped

/-- Value of decimal digits (`int(key_lower[1:])` for a digit string). -/
def digitsToNat (l : List Char) : Nat :=
  l.foldl (fun acc c => acc * 10 + (c.toNat - '0'.toNat)) 0

/-- `key_lower.startswith("f") and key_lower[1:].isdigit() and
1 <= int(key_lower[1:]) <= 12`. -/
def isFKey (keyLower : String) : Bool :=
  match keyLower.data with
  | 'f' :: rest =>
      !rest.isEmpty && rest.all Char.isDigit
        && decide (1 ≤ digitsToNat rest) && decide (digitsToNat rest ≤ 12)
  | _ => false

/-- `HotkeyManager._parse_hotkey` (lines 40–80): known modifiers become
`<token>` parts, the key becomes `<key>` for function keys and multi-character
names and the bare character otherwise, and the parts are joined with `+`. -/
def parseHotkey (cfg : HotkeyConfig) : String :=
  let mods := cfg.Modifiers.filterMap fun m =>
    (modifierToken m).map fun p => "<" ++ p ++ ">"
  let keyLower := strLower cfg.Key
  let keyPart :=
    if isFKey keyLower then "<" ++ keyLower ++ ">"
    else if keyLower.data.length > 1 then "<" ++ keyLower ++ ">"
    else keyLower
  joinPlus (mods ++ [keyPart])

/-- The `HotkeyManager` fields the registration claims observe.  A live
`pynput` listener is identified by the hotkey string it was built from;
callbacks are identified by an abstract id. -/
structure HMState where
  listener : Option String
  callback : Option Nat
  currentConfig : Option HotkeyConfig
  hotkeyActive : Bool
deriving DecidableEq, Repr

/-- `HotkeyManager._stop_listener_internal` (lines 131–145): stop and join
the listener, clear the handle, clear the active flag. -/
def stopListenerInternal (st : HMState) : HMState :=
  { st with listener := none, hotkeyActive := false }

/-- `HotkeyManager.register_global_hotkey` (lines 92–128) under its lock.
`cfg?` is `None` or the config; `cb?` the optional replacement callback;
`platformRejects` models `listener.start()` raising after the
`GlobalHotKeys` object was constructed and assigned. -/
def registerGlobalHotkey (st : HMState) (cfg? : Option HotkeyConfig)
    (cb? : Option Nat) (platformRejects : Bool) : HMState × Bool :=
  -- the callback is stored before any validation
  let st :=
    match cb? with
    | some c => { st with callback := some c }
    | none => st
  match cfg? with
  | none => (st, false)
  | some cfg =>
      if cfg.Key = "" then (st, false)
      else
        let st := { st with currentConfig := some cfg }
        let parsed := parseHotkey cfg
        if parsed = "" then (st, false)
        else
          -- tear down any existing listener before registering the new one
          let st := if st.listener.isSome then stopListenerInternal st else st
          -- GlobalHotKeys is constructed and assigned, then started
          let st := { st with listener := some parsed }
          if platformRejects then
            (stopListenerInternal { st with currentConfig := none }, false)
          else
            ({ st with hotkeyActive := true }, true)

/-! ## Popup liveness from event traces

"At most one live popup at every observation point" is phrased over the
event trace of a pipeline run: starting from the set of initially live
popups, each `closingEmitted` removes a popup and each `popupShown` adds
one; every prefix of the trace is an observation point. -/

/-- Effect of one event on the set of live popup ids. -/
def stepEv (s : List Nat) : Ev → List Nat
  | .closingEmitted i _ => s.erase i
  | .popupShown i => i :: s
  | _ => s

/-- Live popup ids after a trace. -/
def liveAfter (init : List Nat) (tr : List Ev) : List Nat :=
  tr.foldl stepEv init

/-- At most one popup is live at every observation point of the trace. -/
def atMostOne (init : List Nat) (tr : List Ev) : Prop :=
  ∀ pre, pre <+: tr → (liveAfter init pre).length ≤ 1

/-- Events that touch the popup lifecycle or the persisted geometry. -/
def popupEv : Ev → Bool
  | .closingEmitted _ _ => true
  | .popupShown _ => true
  | .geometrySaved _ => true
  | _ => false

/-- Events that persist a geometry. -/
def isSaveEv : Ev → Bool
  | .geometrySaved _ => true
  | _ => false

/-- Events marking a popup's `show` returning. -/
def isShownEv : Ev → Bool
  | .popupShown _ => true
  | _ => false

/-- The spec's "starts with" relation, for comparison with the code's
substring test.  Modelled from the spec: "supplied only if the last resolved
URL does not already start with the current profile's `baseUrl`". -/
def startsWithSpec (s pre : String) : Bool :=
  pre.data.isPrefixOf s.data

/-! ## Concrete instances used by the individual claims -/

/-- C1: a profile with `NeedsSearch = False` and no template. -/
def exC1cfg : GameConfig := ⟨"https://w/", false, none, none⟩

/-- C2: initial state with a live popup of id 1. -/
def exC2st : AppState :=
  ⟨some "https://old/", some ⟨1, "https://old/", ⟨640, 480, 10, 20⟩, true⟩,
    ⟨800, 600, 100, 100⟩⟩

/-- C2: a hotkey invocation matching a no-search profile, popup creation
succeeding. -/
def exC2env : HotkeyEnv :=
  ⟨"Hades - play", [("Hades", ⟨"https://h.wiki/", false, none, none⟩)],
    .rejected, .noFail, 2⟩

/-- C3: initial state with a live popup of id 5 and a previous URL. -/
def exC3st : AppState :=
  ⟨some "https://old/", some ⟨5, "https://old/", ⟨1, 2, 3, 4⟩, true⟩,
    ⟨800, 600, 100, 100⟩⟩

/-- C3: a matching invocation whose popup construction fails. -/
def exC3env : HotkeyEnv :=
  ⟨"Celeste window", [("Celeste", ⟨"https://c.wiki/", false, none, none⟩)],
    .rejected, .ctorFails, 6⟩

/-- C4: an arbitrary profile paired with the empty catalog key. -/
def exC4cfg : GameConfig := ⟨"https://x/", true, none, none⟩

/-- C5: a user settings document that is valid JSON but not an object. -/
def exC5fsArr : SettingsFS := ⟨some (some (.arr [])), none⟩

/-- C5: a user settings document whose bytes fail JSON parsing. -/
def exC5fsMalformed : SettingsFS := ⟨some none, none⟩

/-- C6: session state with no popup and no previous URL. -/
def exC6st : AppState := ⟨none, none, ⟨800, 600, 100, 100⟩⟩

/-- C6: an invocation matching a needs-search profile whose prompt the user
cancels. -/
def exC6env : HotkeyEnv :=
  ⟨"Hollow Knight", [("Hollow Knight", ⟨"https://hk.wiki/", true, none, none⟩)],
    .rejected, .noFail, 3⟩

/-- C7: a profile whose `BaseUrl` occurs in, but does not start, the last
URL. -/
def exC7cfg : GameConfig := ⟨"b", true, none, none⟩

/-- C8: the field list of a valid catalog entry. -/
def exC8goodFields : List (String × Json) := [("BaseUrl", .str "https://g.wiki/")]

/-- C8: a catalog document with one valid entry and one entry whose value is
not a mapping. -/
def exC8doc : Option (Option Json) :=
  some (some (.obj [("Good", .obj exC8goodFields), ("Bad", .num 1)]))

/-- C9: a manager state with a live `<ctrl>+<f1>` registration firing
callback 1. -/
def exC9st : HMState := ⟨some "<ctrl>+<f1>", some 1, some ⟨"F1", ["Ctrl"]⟩, true⟩

/-- C10: a profile with a keyword map and no search template. -/
def exC10cfg : GameConfig := ⟨"https://w/", true, none, some [("boss", "Bosses")]⟩

/-- C10: a keyword map containing the empty alias. -/
def exC10cfgEmptyKey : GameConfig := ⟨"b", true, none, some [("", "X")]⟩

/-! ## Helper lemmas -/

theorem liveAfter_nil (init : List Nat) : liveAfter init [] = init := rfl

theorem liveAfter_cons (init : List Nat) (e : Ev) (tr : List Ev) :
    liveAfter init (e :: tr) = liveAfter (stepEv init e) tr := rfl

theorem atMostOne_nil {init : List Nat} (h : init.length ≤ 1) :
    atMostOne init [] := by
  intro pre hpre
  have hp : pre = [] := List.prefix_nil.mp hpre
  simpa [hp, liveAfter_nil] using h

theorem atMostOne_cons {init : List Nat} {e : Ev} {tr : List Ev}
    (h : init.length ≤ 1) (h2 : atMostOne (stepEv init e) tr) :
    atMostOne init (e :: tr) := by
  intro pre hpre
  cases pre with
  | nil => simpa [liveAfter_nil] using h
  | cons a pre' =>
      obtain ⟨ha, hp⟩ := List.cons_prefix_cons.mp hpre
      subst ha
      simpa [liveAfter_cons] using h2 pre' hp

theorem stepEv_neutral (s : List Nat) (e : Ev) (h : popupEv e = false) :
    stepEv s e = s := by
  cases e <;> simp [stepEv, popupEv] at h ⊢

theorem atMostOne_neutral {l : List Ev} {init : List Nat}
    (hl : ∀ e ∈ l, popupEv e = false) (h : init.length ≤ 1) :
    atMostOne init l := by
  induction l with
  | nil => exact atMostOne_nil h
  | cons e l' ih =>
      have he : popupEv e = false := hl e (by simp)
      refine atMostOne_cons h ?_
      rw [stepEv_neutral _ _ he]
      exact ih fun x hx => hl x (by simp [hx])

theorem atMostOne_append_neutral {pre tr : List Ev} {init : List Nat}
    (hpre : ∀ e ∈ pre, popupEv e = false) (h : init.length ≤ 1)
    (h2 : atMostOne init tr) : atMostOne init (pre ++ tr) := by
  induction pre with
  | nil => simpa using h2
  | cons e pre' ih =>
      have he : popupEv e = false := hpre e (by simp)
      rw [List.cons_append]
      refine atMostOne_cons h ?_
      rw [stepEv_neutral _ _ he]
      exact ih fun x hx => hpre x (by simp [hx])

/-- First-match characterization of `List.find?`. -/
theorem find?_first {α : Type} (p : α → Bool) :
    ∀ (l : List α) (x : α), l.find? p = some x →
      ∃ s t, l = s ++ x :: t ∧ p x = true ∧ ∀ y ∈ s, p y = false := by
  intro l
  induction l with
  | nil => intro x hx; simp [List.find?] at hx
  | cons a l' ih =>
      intro x hx
      by_cases ha : p a = true
      · have : l'.find? p = l'.find? p := rfl
        rw [List.find?_cons_of_pos _ ha] at hx
        obtain rfl : a = x := by injection hx
        exact ⟨[], l', by simp, ha, by simp⟩
      · rw [List.find?_cons_of_neg _ (by simpa using ha)] at hx
        obtain ⟨s, t, hl, hpx, hs⟩ := ih x hx
        refine ⟨a :: s, t, by simp [hl], hpx, ?_⟩
        intro y hy
        rcases List.mem_cons.mp hy with rfl | hy'
        · simpa using ha
        · exact hs y hy'

theorem preEvs_neutral (b1 b2 : Bool) (pf : Option String) :
    ∀ e ∈ ((if b1 then [Ev.cursorShown] else ([] : List Ev))
        ++ (if b2 then [Ev.promptShown pf] else ([] : List Ev))),
      popupEv e = false := by
  cases b1 <;> cases b2 <;> simp [popupEv]

theorem openPopup_spec (st : AppState) (target : String) (fm : FailMode)
    (nid : Nat) (p : Popup) (hp : st.activePopup = some p) :
    atMostOne [p.id] (openPopup st target fm nid).2
    ∧ (∀ g, Ev.geometrySaved g ∉ (openPopup st target fm nid).2)
    ∧ (openPopup st target fm nid).1.settingsPopup = st.settingsPopup
    ∧ (∀ n, Ev.popupShown n ∈ (openPopup st target fm nid).2 →
        ∃ l2, (openPopup st target fm nid).2
          = Ev.closingEmitted p.id p.geom :: Ev.popupShown n :: l2) := by
  cases fm with
  | ctorFails =>
      refine ⟨?_, by simp [openPopup, hp, errNote], by simp [openPopup, hp],
        by simp [openPopup, hp, errNote]⟩
      simp only [openPopup, hp]
      refine atMostOne_cons (by simp) ?_
      simp only [stepEv, List.erase_cons_head]
      exact atMostOne_neutral (by simp [popupEv, errNote]) (by simp)
  | showFails =>
      refine ⟨?_, by simp [openPopup, hp, errNote], by simp [openPopup, hp],
        by simp [openPopup, hp, errNote]⟩
      simp only [openPopup, hp]
      refine atMostOne_cons (by simp) ?_
      simp only [stepEv, List.erase_cons_head]
      exact atMostOne_neutral (by simp [popupEv, errNote]) (by simp)
  | noFail =>
      refine ⟨?_, by simp [openPopup, hp], by simp [openPopup, hp], ?_⟩
      · simp only [openPopup, hp]
        refine atMostOne_cons (by simp) ?_
        simp only [stepEv, List.erase_cons_head]
        refine atMostOne_cons (by simp) ?_
        simp only [stepEv]
        exact atMostOne_neutral (by simp [popupEv]) (by simp)
      · intro n hn
        simp only [openPopup, hp] at hn ⊢
        simp at hn
        subst hn
        exact ⟨[Ev.cursorShown], by simp⟩


theorem neutral_branch {stOrig stRes : AppState} {l : List Ev} {p : Popup}
    (hne : ∀ e ∈ l, popupEv e = false)
    (hset : stRes.settingsPopup = stOrig.settingsPopup) :
    atMostOne [p.id] l ∧ (∀ g, Ev.geometrySaved g ∉ l)
    ∧ stRes.settingsPopup = stOrig.settingsPopup
    ∧ (∀ n, Ev.popupShown n ∈ l →
        ∃ l1 l2, l = l1 ++ Ev.closingEmitted p.id p.geom :: Ev.popupShown n :: l2) := by
  refine ⟨atMostOne_neutral hne (by simp), ?_, hset, ?_⟩
  · intro g hg
    have := hne _ hg
    simp [popupEv] at this
  · intro n hn
    have := hne _ hn
    simp [popupEv] at this

theorem pipelineAfterResolve_spec (st : AppState) (env : HotkeyEnv)
    (preEvs : List Ev) (r : Option (String × Option String)) (p : Popup)
    (hp : st.activePopup = some p) (hne : ∀ e ∈ preEvs, popupEv e = false) :
    atMostOne [p.id] (pipelineAfterResolve st env preEvs r).2
    ∧ (∀ g, Ev.geometrySaved g ∉ (pipelineAfterResolve st env preEvs r).2)
    ∧ (pipelineAfterResolve st env preEvs r).1.settingsPopup = st.settingsPopup
    ∧ (∀ n, Ev.popupShown n ∈ (pipelineAfterResolve st env preEvs r).2 →
        ∃ l1 l2, (pipelineAfterResolve st env preEvs r).2
          = l1 ++ Ev.closingEmitted p.id p.geom :: Ev.popupShown n :: l2) := by
  match r with
  | none => exact neutral_branch hne rfl
  | some (target, newLast) =>
      dsimp only [pipelineAfterResolve]
      by_cases ht : pyTruthyStr target = true
      · rw [if_pos ht]
        obtain ⟨h1, h2, h3, h4⟩ := openPopup_spec
          { st with lastSearchUrl := newLast } target env.failMode env.nextId p hp
        refine ⟨atMostOne_append_neutral hne (by simp) h1, ?_, h3, ?_⟩
        · intro g hg
          rcases List.mem_append.mp hg with h | h
          · have := hne _ h
            simp [popupEv] at this
          · exact h2 g h
        · intro n hn
          rcases List.mem_append.mp hn with h | h
          · have := hne _ h
            simp [popupEv] at this
          · obtain ⟨l2, hl2⟩ := h4 n h
            exact ⟨preEvs, l2, by rw [hl2]⟩
      · rw [if_neg ht]
        exact neutral_branch hne rfl

theorem pipelineMatched_spec (st : AppState) (env : HotkeyEnv) (name : String)
    (cfg : GameConfig) (p : Popup) (hp : st.activePopup = some p) :
    atMostOne [p.id] (pipelineMatched st env name cfg).2
    ∧ (∀ g, Ev.geometrySaved g ∉ (pipelineMatched st env name cfg).2)
    ∧ (pipelineMatched st env name cfg).1.settingsPopup = st.settingsPopup
    ∧ (∀ n, Ev.popupShown n ∈ (pipelineMatched st env name cfg).2 →
        ∃ l1 l2, (pipelineMatched st env name cfg).2
          = l1 ++ Ev.closingEmitted p.id p.geom :: Ev.popupShown n :: l2) := by
  unfold pipelineMatched
  split
  · exact neutral_branch (by simp [popupEv]) rfl
  · exact pipelineAfterResolve_spec st env _ _ p hp
      (preEvs_neutral _ _ _)

/-- C2 (amended): during any hotkey invocation that starts with a live
popup, at most one popup is live at every observation point of the run's
event trace; whenever a new popup's `show` occurs in the trace, the old
popup's `popup_closing` fired with its final geometry immediately before it;
but no geometry is persisted anywhere in the run (the
`popup_closing`/`_handle_popup_closing` connection is severed before the old
popup is closed) and the stored settings geometry is unchanged. -/
theorem c2_popup_replacement (st : AppState) (env : HotkeyEnv) (p : Popup)
    (hp : st.activePopup = some p) :
    atMostOne [p.id] (handleHotkey st env).2
    ∧ (∀ g, Ev.geometrySaved g ∉ (handleHotkey st env).2)
    ∧ (handleHotkey st env).1.settingsPopup = st.settingsPopup
    ∧ (∀ n, Ev.popupShown n ∈ (handleHotkey st env).2 →
        ∃ l1 l2, (handleHotkey st env).2
          = l1 ++ Ev.closingEmitted p.id p.geom :: Ev.popupShown n :: l2) := by
  unfold handleHotkey
  split
  · exact neutral_branch (by simp [popupEv]) rfl
  · split
    · exact neutral_branch (by simp [popupEv]) rfl
    · rename_i nm cfgv heq
      exact pipelineMatched_spec st env nm cfgv p hp

/-- C2 (counterexample to the claim as stated): with a live popup (id 1,
final geometry 640×480@(10,20)) and a matching no-search profile, the run
closes the old popup and shows the new one, but the trace contains no
geometry-persisting event at all — in particular none before the new popup's
`show` — and the stored settings geometry is untouched.  The claimed
capture/persist-before-`Show` therefore fails. -/
theorem c2_counterexample :
    (handleHotkey exC2st exC2env).2
      = [Ev.closingEmitted 1 ⟨640, 480, 10, 20⟩, Ev.popupShown 2, Ev.cursorShown]
    ∧ (∀ e ∈ (handleHotkey exC2st exC2env).2, isSaveEv e = false)
    ∧ (handleHotkey exC2st exC2env).1.settingsPopup = exC2st.settingsPopup := by
  refine ⟨by decide, by decide, by decide⟩

/-- Witness instantiating `c2_popup_replacement` at the concrete C2 run. -/
theorem c2_popup_replacement_witness :
    atMostOne [1] (handleHotkey exC2st exC2env).2
    ∧ (∀ g, Ev.geometrySaved g ∉ (handleHotkey exC2st exC2env).2)
    ∧ (handleHotkey exC2st exC2env).1.settingsPopup = exC2st.settingsPopup
    ∧ (∀ n, Ev.popupShown n ∈ (handleHotkey exC2st exC2env).2 →
        ∃ l1 l2, (handleHotkey exC2st exC2env).2
          = l1 ++ Ev.closingEmitted 1 ⟨640, 480, 10, 20⟩ :: Ev.popupShown n :: l2) :=
  c2_popup_replacement exC2st exC2env
    ⟨1, "https://old/", ⟨640, 480, 10, 20⟩, true⟩ rfl

/-- C6: when the search prompt of a matched needs-search profile resolves as
cancelled, the run changes nothing: the session state (last URL, active
popup) and the settings geometry are exactly as before, and the trace
contains no popup event (nothing opened, closed, replaced or saved). -/
theorem c6_cancel_aborts (st : AppState) (env : HotkeyEnv) (name : String)
    (cfg : GameConfig)
    (hmatch : matchGame env.activeTitle env.catalog = some (name, cfg))
    (hns : cfg.NeedsSearch = true)
    (hnsc : (specialGames.contains (strLower name) && popupVisible st) = false)
    (hrej : env.promptResult = PromptResult.rejected) :
    (handleHotkey st env).1 = st
    ∧ ∀ e ∈ (handleHotkey st env).2, popupEv e = false := by
  have hcat : env.catalog.isEmpty = false := by
    cases hc : env.catalog with
    | nil => rw [hc] at hmatch; simp [matchGame] at hmatch
    | cons a l => simp [hc]
  have hres : resolveTarget st cfg env.promptResult = none := by
    rw [hrej]
    unfold resolveTarget
    rw [hns]
    simp
  unfold handleHotkey
  rw [hcat]
  rw [if_neg (by simp)]
  rw [hmatch]
  unfold pipelineMatched
  dsimp only
  rw [hnsc]
  rw [if_neg (by simp)]
  rw [hres]
  exact ⟨rfl, preEvs_neutral _ _ _⟩

/-- Witness instantiating `c6_cancel_aborts`: a cancelled prompt for a
matched needs-search profile. -/
theorem c6_cancel_aborts_witness :
    (handleHotkey exC6st exC6env).1 = exC6st
    ∧ ∀ e ∈ (handleHotkey exC6st exC6env).2, popupEv e = false :=
  c6_cancel_aborts exC6st exC6env "Hollow Knight"
    ⟨"https://hk.wiki/", true, none, none⟩ (by decide) rfl (by decide) rfl

theorem catalog_nonempty_of_match {title : String}
    {catalog : List (String × GameConfig)} {x : String × GameConfig}
    (h : matchGame title catalog = some x) : catalog.isEmpty = false := by
  cases hc : catalog with
  | nil => rw [hc] at h; simp [matchGame] at h
  | cons a l => simp [hc]

/-- Reduction of `handleHotkey` once a profile has matched and the
special-case short-circuit does not apply. -/
theorem handleHotkey_matched (st : AppState) (env : HotkeyEnv) (name : String)
    (cfg : GameConfig)
    (hmatch : matchGame env.activeTitle env.catalog = some (name, cfg))
    (hnsc : (specialGames.contains (strLower name) && popupVisible st) = false) :
    handleHotkey st env
      = pipelineAfterResolve st env
          ((if specialGames.contains (strLower name) then [Ev.cursorShown] else [])
            ++ (if cfg.NeedsSearch then
                  [Ev.promptShown (promptPrefill cfg st.lastSearchUrl)]
                else []))
          (resolveTarget st cfg env.promptResult) := by
  have hcat := catalog_nonempty_of_match hmatch
  unfold handleHotkey
  rw [hcat]
  rw [if_neg (by simp)]
  rw [hmatch]
  dsimp only
  unfold pipelineMatched
  rw [hnsc]
  rw [if_neg (by simp)]

theorem pipelineAfterResolve_open (st : AppState) (env : HotkeyEnv)
    (preEvs : List Ev) (target : String) (newLast : Option String)
    (htar : pyTruthyStr target = true) :
    pipelineAfterResolve st env preEvs (some (target, newLast))
      = ((openPopup { st with lastSearchUrl := newLast } target
            env.failMode env.nextId).1,
         preEvs ++ (openPopup { st with lastSearchUrl := newLast } target
            env.failMode env.nextId).2) := by
  unfold pipelineAfterResolve
  dsimp only
  rw [htar]
  rfl

theorem openPopup_fail_spec (st : AppState) (target : String) (fm : FailMode)
    (nid : Nat) (hfail : fm ≠ FailMode.noFail) :
    errNote ∈ (openPopup st target fm nid).2
    ∧ (∀ n, Ev.popupShown n ∉ (openPopup st target fm nid).2)
    ∧ (openPopup st target fm nid).1.lastSearchUrl = st.lastSearchUrl
    ∧ (openPopup st target fm nid).1.settingsPopup = st.settingsPopup
    ∧ (fm = FailMode.ctorFails → (openPopup st target fm nid).1.activePopup = none)
    ∧ (fm = FailMode.showFails →
        (openPopup st target fm nid).1.activePopup
          = some ⟨nid, target, st.settingsPopup, false⟩) := by
  cases fm with
  | noFail => exact absurd rfl hfail
  | ctorFails =>
      unfold openPopup
      cases hap : st.activePopup <;> simp [hap, errNote, isShownEv]
  | showFails =>
      unfold openPopup
      cases hap : st.activePopup <;> simp [hap, errNote, isShownEv]

/-- C3 (counterexample to the claim as stated): starting with a live popup
and `lastSearchUrl = "https://old/"`, a matching invocation whose popup
construction fails does emit the error notification and shows no popup — but
the session state is *not* unchanged: `last_search_url_str` was already
overwritten with the new target URL and the previous popup was already
closed before the creation attempt. -/
theorem c3_counterexample :
    errNote ∈ (handleHotkey exC3st exC3env).2
    ∧ (∀ e ∈ (handleHotkey exC3st exC3env).2, isShownEv e = false)
    ∧ (handleHotkey exC3st exC3env).1.lastSearchUrl ≠ exC3st.lastSearchUrl
    ∧ (handleHotkey exC3st exC3env).1.activePopup ≠ exC3st.activePopup := by
  refine ⟨by decide, by decide, by decide, by decide⟩

/-- C3 (amended): if popup construction or `show` raises, the error
notification is emitted and no popup `show` returns; but rather than the
session state being unchanged, `lastSearchUrl` already holds the freshly
resolved value, the settings geometry is untouched, and `activePopup` is
`None` when the constructor failed (the prior popup, if any, was already
closed), or references the new never-shown popup when `show` failed. -/
theorem c3_creation_failure (st : AppState) (env : HotkeyEnv) (name : String)
    (cfg : GameConfig) (target : String) (newLast : Option String)
    (hmatch : matchGame env.activeTitle env.catalog = some (name, cfg))
    (hnsc : (specialGames.contains (strLower name) && popupVisible st) = false)
    (hres : resolveTarget st cfg env.promptResult = some (target, newLast))
    (htar : pyTruthyStr target = true)
    (hfail : env.failMode ≠ FailMode.noFail) :
    errNote ∈ (handleHotkey st env).2
    ∧ (∀ n, Ev.popupShown n ∉ (handleHotkey st env).2)
    ∧ (handleHotkey st env).1.lastSearchUrl = newLast
    ∧ (handleHotkey st env).1.settingsPopup = st.settingsPopup
    ∧ (env.failMode = FailMode.ctorFails →
        (handleHotkey st env).1.activePopup = none)
    ∧ (env.failMode = FailMode.showFails →
        (handleHotkey st env).1.activePopup
          = some ⟨env.nextId, target, st.settingsPopup, false⟩) := by
  rw [handleHotkey_matched st env name cfg hmatch hnsc, hres,
    pipelineAfterResolve_open st env _ target newLast htar]
  obtain ⟨f1, f2, f3, f4, f5, f6⟩ := openPopup_fail_spec
    { st with lastSearchUrl := newLast } target env.failMode env.nextId hfail
  refine ⟨List.mem_append.mpr (Or.inr f1), ?_, f3, f4, f5, f6⟩
  intro n hn
  rcases List.mem_append.mp hn with h | h
  · have := preEvs_neutral _ _ _ _ h
    simp [popupEv] at this
  · exact f2 n h

/-- Witness instantiating `c3_creation_failure` at the concrete C3 run. -/
theorem c3_creation_failure_witness :
    errNote ∈ (handleHotkey exC3st exC3env).2
    ∧ (∀ n, Ev.popupShown n ∉ (handleHotkey exC3st exC3env).2)
    ∧ (handleHotkey exC3st exC3env).1.lastSearchUrl = some "https://c.wiki/"
    ∧ (handleHotkey exC3st exC3env).1.settingsPopup = exC3st.settingsPopup
    ∧ (exC3env.failMode = FailMode.ctorFails →
        (handleHotkey exC3st exC3env).1.activePopup = none)
    ∧ (exC3env.failMode = FailMode.showFails →
        (handleHotkey exC3st exC3env).1.activePopup
          = some ⟨exC3env.nextId, "https://c.wiki/", exC3st.settingsPopup, false⟩) :=
  c3_creation_failure exC3st exC3env "Celeste" ⟨"https://c.wiki/", false, none, none⟩
    "https://c.wiki/" (some "https://c.wiki/")
    (by decide) (by decide) (by decide) (by decide) (by decide)

theorem strLower_ne_empty {s : String} (h : s ≠ "") : strLower s ≠ "" := by
  cases s with
  | mk l =>
      cases l with
      | nil => exact absurd rfl h
      | cons c cs =>
          intro hc
          have hd := congrArg String.data hc
          simp [strLower] at hd

theorem pyIn_empty_right {a : String} (ha : a ≠ "") : pyIn a "" = false := by
  cases a with
  | mk l =>
      cases l with
      | nil => exact absurd rfl ha
      | cons c cs => simp [pyIn, List.infix_nil]

/-- C4 (counterexample to the claim as stated): the empty string is a legal
catalog key, it occurs (case-insensitively) as a substring of *every* title,
and in particular the empty title then does produce a match — contradicting
"an empty title produces no match" as a universal statement. -/
theorem c4_counterexample :
    matchGame "" [("", exC4cfg)] = some ("", exC4cfg)
    ∧ matchGame "" [("", exC4cfg)] ≠ none := by
  refine ⟨by decide, by decide⟩

/-- C4 (amended): matching returns the first entry in catalog order whose
lower-cased key is a substring of the lower-cased title, and no entry exactly
when no key so occurs; an empty title produces no match *provided every
catalog key is non-empty* (an empty key matches every title, including the
empty one). -/
theorem c4_match_first (title : String) (catalog : List (String × GameConfig)) :
    (∀ k cfg, matchGame title catalog = some (k, cfg) →
       ∃ s t, catalog = s ++ (k, cfg) :: t
         ∧ pyIn (strLower k) (strLower title) = true
         ∧ ∀ q ∈ s, pyIn (strLower q.1) (strLower title) = false)
    ∧ (matchGame title catalog = none ↔
        ∀ q ∈ catalog, pyIn (strLower q.1) (strLower title) = false)
    ∧ ((∀ q ∈ catalog, q.1 ≠ "") → matchGame "" catalog = none) := by
  refine ⟨?_, ?_, ?_⟩
  · intro k cfg h
    exact find?_first _ _ _ h
  · simp [matchGame, List.find?_eq_none]
  · intro hk
    have : ∀ q ∈ catalog, pyIn (strLower q.1) (strLower "") = false := by
      intro q hq
      exact pyIn_empty_right (strLower_ne_empty (hk q hq))
    simpa [matchGame, List.find?_eq_none] using this

/-- Witness instantiating `c4_match_first`: the title "ELDEN RING - 1.0"
matches the catalog key "Elden Ring" first. -/
theorem c4_match_first_witness :
    ∃ s t, [("Elden Ring", exC4cfg)] = s ++ ("Elden Ring", exC4cfg) :: t
      ∧ pyIn (strLower "Elden Ring") (strLower "ELDEN RING - 1.0") = true
      ∧ ∀ q ∈ s, pyIn (strLower q.1) (strLower "ELDEN RING - 1.0") = false :=
  (c4_match_first "ELDEN RING - 1.0" [("Elden Ring", exC4cfg)]).1
    "Elden Ring" exC4cfg (by decide)

/-- C1 (counterexample to the claim as stated): `_build_url` never consults
`NeedsSearch`.  For a profile with `NeedsSearch = False` and no template, a
non-empty search term is percent-encoded and appended to the base URL rather
than ignored. -/
theorem c1_counterexample :
    exC1cfg.NeedsSearch = false
    ∧ buildUrl exC1cfg (some "x") = "https://w/x"
    ∧ buildUrl exC1cfg (some "x") ≠ exC1cfg.BaseUrl := by
  refine ⟨rfl, by decide, by decide⟩

/-- C1 (amended): `_build_url` returns `BaseUrl` unchanged exactly when the
search term is absent or empty (regardless of `NeedsSearch`); in the
pipeline, a matched profile with `NeedsSearch = False` is always resolved by
calling `_build_url` with no search term, so the resolved target — and the
new `lastSearchUrl` — is the profile's `BaseUrl`, whatever `SearchTemplate`
or `KeywordMap` it carries. -/
theorem c1_build_url (cfg : GameConfig) :
    buildUrl cfg none = cfg.BaseUrl
    ∧ buildUrl cfg (some "") = cfg.BaseUrl
    ∧ (∀ (st : AppState) (pr : PromptResult), cfg.NeedsSearch = false →
        resolveTarget st cfg pr = some (cfg.BaseUrl, some cfg.BaseUrl)) := by
  refine ⟨rfl, rfl, ?_⟩
  intro st pr hns
  unfold resolveTarget
  rw [hns]
  simp [buildUrl, pyTruthyOptStr]

/-- Witness instantiating `c1_build_url` at the C1 profile. -/
theorem c1_build_url_witness :
    buildUrl exC1cfg none = exC1cfg.BaseUrl
    ∧ buildUrl exC1cfg (some "") = exC1cfg.BaseUrl
    ∧ resolveTarget ⟨none, none, ⟨800, 600, 100, 100⟩⟩ exC1cfg
        PromptResult.openLast = some (exC1cfg.BaseUrl, some exC1cfg.BaseUrl) :=
  ⟨(c1_build_url exC1cfg).1, (c1_build_url exC1cfg).2.1,
    (c1_build_url exC1cfg).2.2 ⟨none, none, ⟨800, 600, 100, 100⟩⟩
      PromptResult.openLast rfl⟩

theorem pipelineAfterResolve_mem_pre (st : AppState) (env : HotkeyEnv)
    (preEvs : List Ev) (r : Option (String × Option String)) (e : Ev)
    (he : e ∈ preEvs) : e ∈ (pipelineAfterResolve st env preEvs r).2 := by
  match r with
  | none => exact he
  | some (target, newLast) =>
      dsimp only [pipelineAfterResolve]
      by_cases ht : pyTruthyStr target = true
      · rw [if_pos ht]
        exact List.mem_append.mpr (Or.inl he)
      · rw [if_neg ht]
        exact he

/-- C7 (counterexample to the claim as stated): with `BaseUrl = "b"` and
last URL `"ab"`, the last URL does *not start with* the base URL, so the
claim demands the pre-fill `"ab"`; but the code's test is substring
containment (`not in`), `"b"` occurs in `"ab"`, and the pre-fill supplied is
`""`. -/
theorem c7_counterexample :
    startsWithSpec "ab" "b" = false
    ∧ promptPrefill exC7cfg (some "ab") = some ""
    ∧ promptPrefill exC7cfg (some "ab") ≠ some "ab" := by
  refine ⟨by decide, by decide, by decide⟩

/-- C7 (amended): the prompt's pre-fill is the last resolved URL exactly
when the matched profile's `BaseUrl` does not occur *as a substring* of that
URL (an absent URL is treated as `""`), and the empty pre-fill otherwise;
and the prompt shown by the pipeline for a matched needs-search profile is
given exactly this pre-fill. -/
theorem c7_prefill (cfg : GameConfig) (lastUrl : Option String) :
    (pyIn cfg.BaseUrl (lastUrl.getD "") = false →
      promptPrefill cfg lastUrl = lastUrl)
    ∧ (pyIn cfg.BaseUrl (lastUrl.getD "") = true →
      promptPrefill cfg lastUrl = some "")
    ∧ (∀ (st : AppState) (env : HotkeyEnv) (name : String),
        matchGame env.activeTitle env.catalog = some (name, cfg) →
        (specialGames.contains (strLower name) && popupVisible st) = false →
        cfg.NeedsSearch = true →
        st.lastSearchUrl = lastUrl →
        Ev.promptShown (promptPrefill cfg lastUrl) ∈ (handleHotkey st env).2) := by
  refine ⟨?_, ?_, ?_⟩
  · intro h
    unfold promptPrefill
    rw [h]
    simp
  · intro h
    unfold promptPrefill
    rw [h]
    simp
  · intro st env name hmatch hnsc hns hlast
    rw [handleHotkey_matched st env name cfg hmatch hnsc]
    refine pipelineAfterResolve_mem_pre _ _ _ _ _ ?_
    rw [hns, hlast]
    simp

/-- Witness instantiating `c7_prefill`: base URL "b" does not occur in last
URL "zzz", so the prompt opened by the pipeline carries pre-fill "zzz". -/
theorem c7_prefill_witness :
    promptPrefill exC7cfg (some "zzz") = some "zzz"
    ∧ Ev.promptShown (promptPrefill exC7cfg (some "zzz"))
        ∈ (handleHotkey ⟨some "zzz", none, ⟨800, 600, 100, 100⟩⟩
            ⟨"play b now", [("b", exC7cfg)], PromptResult.rejected,
              FailMode.noFail, 1⟩).2 :=
  ⟨(c7_prefill exC7cfg (some "zzz")).1 (by decide),
   (c7_prefill exC7cfg (some "zzz")).2.2
     ⟨some "zzz", none, ⟨800, 600, 100, 100⟩⟩
     ⟨"play b now", [("b", exC7cfg)], PromptResult.rejected, FailMode.noFail, 1⟩
     "b" (by decide) (by decide) rfl rfl⟩

/-- C10: with a keyword map, no template, and a non-empty term whose
lowercasing is an alias of the map, `_build_url` concatenates `BaseUrl` with
the percent-encoding of the *mapped canonical term* — the substitution also
governs the no-template fallback path. -/
theorem c10_keyword_map (cfg : GameConfig) (m : List (String × String))
    (t canon : String)
    (hkm : cfg.KeywordMap = some m)
    (htpl : cfg.SearchTemplate = none)
    (ht : pyTruthyStr t = true)
    (hlk : List.lookup (strLower t) m = some canon) :
    buildUrl cfg (some t) = cfg.BaseUrl ++ quotePlus canon := by
  have hm : m.isEmpty = false := by
    cases m with
    | nil => simp [List.lookup] at hlk
    | cons a l => rfl
  simp [buildUrl, pyTruthyOptStr, ht, hkm, hm, htpl, hlk]

/-- Witness instantiating `c10_keyword_map`: alias "Boss" lowercases to
"boss" and is replaced by "Bosses" on the no-template path. -/
theorem c10_keyword_map_witness :
    buildUrl exC10cfg (some "Boss") = exC10cfg.BaseUrl ++ quotePlus "Bosses" :=
  c10_keyword_map exC10cfg [("boss", "Bosses")] "Boss" "Bosses"
    rfl rfl (by decide) (by decide)

/-- C10 (counterexample to the claim as stated): the empty search term may
lowercase to a key of the map (the empty alias), yet `_build_url` treats it
as absent (`if search_term:` is falsy) and returns the bare `BaseUrl`, not
the encoded canonical term. -/
theorem c10_counterexample :
    List.lookup (strLower "") [("", "X")] = some "X"
    ∧ exC10cfgEmptyKey.KeywordMap = some [("", "X")]
    ∧ exC10cfgEmptyKey.SearchTemplate = none
    ∧ buildUrl exC10cfgEmptyKey (some "") = exC10cfgEmptyKey.BaseUrl
    ∧ buildUrl exC10cfgEmptyKey (some "")
        ≠ exC10cfgEmptyKey.BaseUrl ++ quotePlus "X" := by
  refine ⟨by decide, rfl, rfl, by decide, by decide⟩

/-- C5 (counterexample to the claim as stated): a user settings document
holding valid JSON that is *not* an object (here `[]`) fails schema
validation, but instead of recovering, `load_settings` raises an uncaught
`TypeError` at `AppSettings(**data)` — the error propagates to the caller
and no defaults are written. -/
theorem c5_counterexample :
    settingsLoad exC5fsArr = Except.error () := rfl

/-- C5 (amended): for a user document whose bytes fail JSON parsing, or
which parses to a JSON *object* failing `AppSettings` validation,
`load_settings` returns the hardcoded defaults (`Key="F1"`,
`Modifiers=["Ctrl"]`, 800×600 popup at (100,100)), overwrites the user
document with them, and a reload of the overwritten document returns the
same defaults without further rewriting; only a document parsing to a
non-object JSON value escapes this recovery (it raises `TypeError`, see the
counterexample). -/
theorem c5_load_settings (fs : SettingsFS) (j? : Option Json)
    (hu : fs.user = some j?)
    (hbad : j? = none
      ∨ ∃ fields, j? = some (.obj fields) ∧ appSettingsFromFields fields = none) :
    settingsLoad fs
      = .ok (defaultSettings, writeUser fs (renderSettings defaultSettings))
    ∧ defaultSettings = ⟨⟨"F1", ["Ctrl"]⟩, ⟨800, 600, 100, 100⟩⟩
    ∧ settingsLoad (writeUser fs (renderSettings defaultSettings))
        = .ok (defaultSettings, writeUser fs (renderSettings defaultSettings)) := by
  refine ⟨?_, rfl, rfl⟩
  rcases hbad with hn | ⟨fields, hj, hv⟩
  · subst hn
    unfold settingsLoad
    rw [hu]
    rfl
  · subst hj
    unfold settingsLoad
    rw [hu]
    dsimp only
    unfold parseUserDoc
    dsimp only
    rw [hv]

/-- Witness instantiating `c5_load_settings` at a document whose bytes fail
JSON parsing. -/
theorem c5_load_settings_witness :
    settingsLoad exC5fsMalformed
      = .ok (defaultSettings, writeUser exC5fsMalformed (renderSettings defaultSettings))
    ∧ defaultSettings = ⟨⟨"F1", ["Ctrl"]⟩, ⟨800, 600, 100, 100⟩⟩
    ∧ settingsLoad (writeUser exC5fsMalformed (renderSettings defaultSettings))
        = .ok (defaultSettings, writeUser exC5fsMalformed (renderSettings defaultSettings)) :=
  c5_load_settings exC5fsMalformed none rfl (Or.inl rfl)

theorem loadEntries_ok (fields : List (String × Json))
    (h : ∀ p ∈ fields, ∃ fs, p.2 = Json.obj fs) :
    loadEntries fields
      = .ok (fields.filterMap fun p =>
          match p.2 with
          | .obj fs => (gameConfigFromFields fs).map fun cfg => (p.1, cfg)
          | _ => none) := by
  induction fields with
  | nil => rfl
  | cons q rest ih =>
      obtain ⟨n, v⟩ := q
      obtain ⟨fs, hv⟩ := h (n, v) (by simp)
      dsimp only at hv
      subst hv
      have ih' := ih fun p hp => h p (by simp [hp])
      unfold loadEntries
      cases hg : gameConfigFromFields fs with
      | some cfg => rw [ih']; simp [List.filterMap_cons, hg, Except.map]
      | none => rw [ih']; simp [List.filterMap_cons, hg]

theorem loadEntries_error (fields : List (String × Json))
    (h : ∃ p ∈ fields, ∀ fs, p.2 ≠ Json.obj fs) :
    loadEntries fields = .error () := by
  induction fields with
  | nil => simp at h
  | cons q rest ih =>
      obtain ⟨n, v⟩ := q
      obtain ⟨p, hp, hnp⟩ := h
      rcases List.mem_cons.mp hp with heq | hp'
      · subst heq
        dsimp only at hnp
        cases v with
        | obj fs => exact absurd rfl (hnp fs)
        | null => rfl
        | bool b => rfl
        | num m => rfl
        | str s => rfl
        | arr xs => rfl
      · cases v with
        | obj fs =>
            have herr := ih ⟨p, hp', hnp⟩
            unfold loadEntries
            cases hg : gameConfigFromFields fs with
            | some cfg => rw [herr]; rfl
            | none => exact herr
        | null => rfl
        | bool b => rfl
        | num m => rfl
        | str s => rfl
        | arr xs => rfl

/-- C8 (counterexample to the claim as stated): a catalog document holding
one valid entry ("Good") and one entry whose value is not a mapping ("Bad":
1) loses *everything*: `GameConfig(**1)` raises `TypeError`, which only the
outer handler catches, so the whole load returns an empty catalog and the
valid entry is not returned. -/
theorem c8_counterexample :
    gameConfigFromFields exC8goodFields
      = some ⟨"https://g.wiki/", true, none, none⟩
    ∧ loadGameConfigs exC8doc = []
    ∧ ("Good", (⟨"https://g.wiki/", true, none, none⟩ : GameConfig))
        ∉ loadGameConfigs exC8doc := by
  refine ⟨rfl, rfl, ?_⟩
  intro hx
  rw [show loadGameConfigs exC8doc = [] from rfl] at hx
  simp at hx

/-- C8 (amended): `load_game_configs` never raises; a missing or
JSON-malformed document yields an empty catalog; when every entry value is a
mapping, each entry failing `GameConfig` validation is skipped individually
and all valid entries are returned; but one entry whose value is *not* a
mapping raises `TypeError` into the outer handler and empties the whole
catalog. -/
theorem c8_load_game_configs (fields : List (String × Json)) :
    loadGameConfigs none = []
    ∧ loadGameConfigs (some none) = []
    ∧ ((∀ p ∈ fields, ∃ fs, p.2 = Json.obj fs) →
        loadGameConfigs (some (some (.obj fields)))
          = fields.filterMap fun p =>
              match p.2 with
              | .obj fs => (gameConfigFromFields fs).map fun cfg => (p.1, cfg)
              | _ => none)
    ∧ ((∃ p ∈ fields, ∀ fs, p.2 ≠ Json.obj fs) →
        loadGameConfigs (some (some (.obj fields))) = []) := by
  refine ⟨rfl, rfl, ?_, ?_⟩
  · intro h
    unfold loadGameConfigs
    dsimp only
    rw [loadEntries_ok fields h]
  · intro h
    unfold loadGameConfigs
    dsimp only
    rw [loadEntries_error fields h]

/-- Witness instantiating `c8_load_game_configs`: a document whose single
entry is a valid mapping loads exactly that entry. -/
theorem c8_load_game_configs_witness :
    loadGameConfigs (some (some (.obj [("Good", Json.obj exC8goodFields)])))
      = [("Good", Json.obj exC8goodFields)].filterMap fun p =>
          match p.2 with
          | .obj fs => (gameConfigFromFields fs).map fun cfg => (p.1, cfg)
          | _ => none :=
  (c8_load_game_configs [("Good", Json.obj exC8goodFields)]).2.2.1
    (by
      intro p hp
      rw [List.mem_singleton.mp hp]
      exact ⟨exC8goodFields, rfl⟩)

theorem str_data_append (a b : String) : (a ++ b).data = a.data ++ b.data := by
  cases a
  cases b
  rfl

theorem joinPlus_append_ne_empty (l : List String) (k : String) (hk : k ≠ "") :
    joinPlus (l ++ [k]) ≠ "" := by
  induction l with
  | nil => simpa [joinPlus] using hk
  | cons a rest ih =>
      cases hcons : rest ++ [k] with
      | nil => simp at hcons
      | cons b tl =>
          rw [List.cons_append, hcons]
          intro he
          have hd := congrArg String.data he
          simp only [joinPlus, str_data_append,
            show ("+" : String).data = ['+'] from rfl] at hd
          simp at hd

theorem parseHotkey_ne_empty (cfg : HotkeyConfig) (hk : cfg.Key ≠ "") :
    parseHotkey cfg ≠ "" := by
  unfold parseHotkey
  apply joinPlus_append_ne_empty
  by_cases h1 : isFKey (strLower cfg.Key) = true
  · rw [if_pos h1]
    intro he
    have hd := congrArg String.data he
    rw [str_data_append, str_data_append] at hd
    simp at hd
  · rw [if_neg h1]
    by_cases h2 : (strLower cfg.Key).data.length > 1
    · rw [if_pos h2]
      intro he
      have hd := congrArg String.data he
      rw [str_data_append, str_data_append] at hd
      simp at hd
    · rw [if_neg h2]
      exact strLower_ne_empty hk

/-- C9 (counterexample to the claim as stated): registering with an invalid
config (`None`) but a fresh callback returns `false` and leaves the listener
and its hotkey combination untouched — yet the previously active
registration is *not* unchanged: the stored callback (what the live hotkey
fires) was already replaced before validation. -/
theorem c9_counterexample :
    (registerGlobalHotkey exC9st none (some 2) false).2 = false
    ∧ (registerGlobalHotkey exC9st none (some 2) false).1.listener
        = exC9st.listener
    ∧ (registerGlobalHotkey exC9st none (some 2) false).1.callback = some 2
    ∧ (registerGlobalHotkey exC9st none (some 2) false).1 ≠ exC9st := by
  refine ⟨rfl, rfl, rfl, by decide⟩

/-- C9 (amended): a registration attempt with a missing config or empty key
returns `false` and leaves the listener, its config and the active flag
unchanged — and the whole state unchanged when no replacement callback was
supplied (a supplied callback, however, is stored before validation); a
valid config whose `start()` is rejected by the platform after the old
listener was torn down returns `false` and leaves the system with no
listener, no active hotkey and no current config — without raising. -/
theorem c9_register (st : HMState) (cfg? : Option HotkeyConfig)
    (cb? : Option Nat) (rej : Bool) :
    ((cfg? = none ∨ ∃ cfg, cfg? = some cfg ∧ cfg.Key = "") →
      (registerGlobalHotkey st cfg? cb? rej).2 = false
      ∧ (registerGlobalHotkey st cfg? cb? rej).1.listener = st.listener
      ∧ (registerGlobalHotkey st cfg? cb? rej).1.currentConfig = st.currentConfig
      ∧ (registerGlobalHotkey st cfg? cb? rej).1.hotkeyActive = st.hotkeyActive
      ∧ (cb? = none → (registerGlobalHotkey st cfg? cb? rej).1 = st))
    ∧ (∀ cfg, cfg? = some cfg → cfg.Key ≠ "" → rej = true →
        (registerGlobalHotkey st cfg? cb? rej).2 = false
        ∧ (registerGlobalHotkey st cfg? cb? rej).1.listener = none
        ∧ (registerGlobalHotkey st cfg? cb? rej).1.hotkeyActive = false
        ∧ (registerGlobalHotkey st cfg? cb? rej).1.currentConfig = none) := by
  constructor
  · intro hbad
    rcases hbad with hn | ⟨cfg, hc, hkey⟩
    · subst hn
      cases cb? with
      | none => exact ⟨rfl, rfl, rfl, rfl, fun _ => rfl⟩
      | some c =>
          refine ⟨rfl, rfl, rfl, rfl, fun hcb => ?_⟩
          cases hcb
    · subst hc
      cases cb? with
      | none =>
          simp only [registerGlobalHotkey]
          rw [if_pos hkey]
          exact ⟨rfl, rfl, rfl, rfl, fun _ => rfl⟩
      | some c =>
          simp only [registerGlobalHotkey]
          rw [if_pos hkey]
          refine ⟨rfl, rfl, rfl, rfl, fun hcb => ?_⟩
          cases hcb
  · intro cfg hc hkey hrej
    subst hc
    subst hrej
    have hp := parseHotkey_ne_empty cfg hkey
    cases cb? with
    | none =>
        simp only [registerGlobalHotkey]
        rw [if_neg hkey]
        rw [if_neg hp]
        by_cases hls : st.listener.isSome = true
        · rw [if_pos hls]
          exact ⟨rfl, rfl, rfl, rfl⟩
        · rw [if_neg hls]
          exact ⟨rfl, rfl, rfl, rfl⟩
    | some c =>
        simp only [registerGlobalHotkey]
        rw [if_neg hkey]
        rw [if_neg hp]
        by_cases hls : st.listener.isSome = true
        · rw [if_pos hls]
          exact ⟨rfl, rfl, rfl, rfl⟩
        · rw [if_neg hls]
          exact ⟨rfl, rfl, rfl, rfl⟩

/-- Witness instantiating `c9_register`: an invalid attempt with no callback
leaves the state untouched; a valid attempt rejected by the platform ends
with no listener, inactive, no config. -/
theorem c9_register_witness :
    ((registerGlobalHotkey exC9st none none false).2 = false
      ∧ (registerGlobalHotkey exC9st none none false).1.listener = exC9st.listener
      ∧ (registerGlobalHotkey exC9st none none false).1.currentConfig
          = exC9st.currentConfig
      ∧ (registerGlobalHotkey exC9st none none false).1.hotkeyActive
          = exC9st.hotkeyActive
      ∧ (none = (none : Option Nat) →
          (registerGlobalHotkey exC9st none none false).1 = exC9st))
    ∧ ((registerGlobalHotkey exC9st (some ⟨"F2", ["Alt"]⟩) (some 2) true).2 = false
      ∧ (registerGlobalHotkey exC9st (some ⟨"F2", ["Alt"]⟩) (some 2) true).1.listener
          = none
      ∧ (registerGlobalHotkey exC9st (some ⟨"F2", ["Alt"]⟩) (some 2) true).1.hotkeyActive
          = false
      ∧ (registerGlobalHotkey exC9st (some ⟨"F2", ["Alt"]⟩) (some 2) true).1.currentConfig
          = none) :=
  ⟨(c9_register exC9st none none false).1 (Or.inl rfl),
   (c9_register exC9st (some ⟨"F2", ["Alt"]⟩) (some 2) true).2
     ⟨"F2", ["Alt"]⟩ rfl (by decide) rfl⟩
